import Mathlib

/-
  Verification development for the EuclideanVector header-only C++ library
  (src/EuclideanVector/EuclideanVector.hpp).

  The library provides fixed-dimension (1..4) Euclidean vector types in two
  storage families (a recursive-inheritance family EuclideanRecVector2/3/4
  rooted at EuclideanVector1, and a flat/final family EuclideanCmplVector2/3/4),
  plus transient ResultPacker_N aggregates returned by every arithmetic
  operator.  All arithmetic is componentwise over a caller-chosen element
  type E; member functions are enabled per-operation by SFINAE capability
  traits (meta::is_add_equal_v and friends).

  The element type is modelled as an arbitrary Lean type E carrying exactly
  the operations each member function's body uses (Mul/Add/Sub/Div instance
  binders mirror the decltype requirements of each C++ member).  std::sqrt
  is modelled as an explicit function parameter `sqrt : E → E`; theorems about the
  value of the Euclidean norm instantiate E := ℝ and sqrt := Real.sqrt.
  The ElemType(...) casts that appear in the Cmpl-family bodies are
  identity conversions in this monomorphic model (left operand type and
  right operand type coincide) and are dropped.
-/

/-- detail::ResultPacker_1 (source lines 264-326): a one-element aggregate
returned by 1D vector arithmetic. -/
structure ResultPacker_1 (E : Type) where
  x : E

/-- detail::ResultPacker_2 (source lines 328-390). -/
structure ResultPacker_2 (E : Type) where
  x : E
  y : E

/-- detail::ResultPacker_3 (source lines 392-454). -/
structure ResultPacker_3 (E : Type) where
  x : E
  y : E
  z : E
deriving DecidableEq

/-- detail::ResultPacker_4 (source lines 456-518). -/
structure ResultPacker_4 (E : Type) where
  x : E
  y : E
  z : E
  w : E

/-- EuclideanVector1 (source lines 525-1072): one protected member x_. -/
structure EuclideanVector1 (E : Type) where
  x_ : E

/-- EuclideanRecVector2 (source lines 1081-1667): privately inherits
EuclideanVector1 (contributing x_) and adds y_; the flattened storage is
the ordered fields x_, y_. -/
structure EuclideanRecVector2 (E : Type) where
  x_ : E
  y_ : E

/-- EuclideanRecVector3 (source lines 1672-2386): inherits EuclideanRecVector2
and adds z_. -/
structure EuclideanRecVector3 (E : Type) where
  x_ : E
  y_ : E
  z_ : E

/-- EuclideanRecVector4 (source lines 2391-3797): inherits EuclideanRecVector3
and adds w_. -/
structure EuclideanRecVector4 (E : Type) where
  x_ : E
  y_ : E
  z_ : E
  w_ : E

/-- EuclideanCmplVector2 (source lines 3800-4382): flat final struct with
public members x_, y_. -/
structure EuclideanCmplVector2 (E : Type) where
  x_ : E
  y_ : E

/-- EuclideanCmplVector3 (source lines 4387-5098): flat final struct with
public members x_, y_, z_. -/
structure EuclideanCmplVector3 (E : Type) where
  x_ : E
  y_ : E
  z_ : E

/-- EuclideanCmplVector4 (source lines 5103-6503): flat final struct with
public members x_, y_, z_, w_. -/
structure EuclideanCmplVector4 (E : Type) where
  x_ : E
  y_ : E
  z_ : E
  w_ : E

namespace EuclideanVector1

variable {E : Type}

/-- Accessor x() (source line 964): returns (a reference to) x_. -/
def x (v : EuclideanVector1 E) : E := v.x_

/-- operator+(const EuclideanVector1&) const (source lines 592-597):
componentwise sum into a ResultPacker_1. -/
def plus [Add E] (a b : EuclideanVector1 E) : ResultPacker_1 E :=
  ⟨a.x_ + b.x_⟩

/-- dot(const EuclideanVector1&) const (source lines 999-1004):
`return x_ * vector.x_;`. -/
def dot [Mul E] (a b : EuclideanVector1 E) : E :=
  a.x_ * b.x_

/-- eucnorm_squared() const (source lines 1025-1030): `return x_ * x_;`. -/
def eucnorm_squared [Mul E] (v : EuclideanVector1 E) : E :=
  v.x_ * v.x_

/-- eucnorm() const (source lines 1039-1044): the return type is
decltype(std::sqrt(eucnorm_squared())), but the body is `return x_;` --
the raw stored element, sqrt is never applied and no absolute value is
taken.  The sqrt parameter mirrors the std::sqrt dependency of the
declared return type and is unused by the body. -/
def eucnorm [Mul E] (sqrt : E → E) (v : EuclideanVector1 E) : E :=
  v.x_

/-- normalize() const (source lines 1051-1057): divides the element by
eucnorm() with no zero-norm guard. -/
def normalize [Mul E] [Div E] (sqrt : E → E) (v : EuclideanVector1 E) :
    ResultPacker_1 E :=
  ⟨v.x_ / eucnorm sqrt v⟩

end EuclideanVector1

namespace EuclideanRecVector2

variable {E : Type}

/-- Accessor x() (source line 1547). -/
def x (v : EuclideanRecVector2 E) : E := v.x_

/-- Accessor y() (source line 1551). -/
def y (v : EuclideanRecVector2 E) : E := v.y_

/-- operator+(const EuclideanRecVector2&) const (source lines 1156-1161):
`return { MX::x_ + vector.x_, y_ + vector.y_ };`. -/
def plus [Add E] (a b : EuclideanRecVector2 E) : ResultPacker_2 E :=
  ⟨a.x_ + b.x_, a.y_ + b.y_⟩

/-- dot(const EuclideanRecVector2&) const (source lines 1596-1601):
`return (MX::x_ * vector.x_) + (y_ * vector.y_);`. -/
def dot [Mul E] [Add E] (a b : EuclideanRecVector2 E) : E :=
  (a.x_ * b.x_) + (a.y_ * b.y_)

/-- eucnorm_squared() const (source lines 1622-1627):
`return (MX::x_ * MX::x_) + (y_ * y_);`. -/
def eucnorm_squared [Mul E] [Add E] (v : EuclideanRecVector2 E) : E :=
  (v.x_ * v.x_) + (v.y_ * v.y_)

/-- eucnorm() const (source lines 1636-1641):
`return std::sqrt((MX::x_ * MX::x_) + (y_ * y_));`. -/
def eucnorm [Mul E] [Add E] (sqrt : E → E) (v : EuclideanRecVector2 E) : E :=
  sqrt ((v.x_ * v.x_) + (v.y_ * v.y_))

/-- normalize() const (source lines 1648-1654): each member divided by
eucnorm(), no zero-norm guard. -/
def normalize [Mul E] [Add E] [Div E] (sqrt : E → E)
    (v : EuclideanRecVector2 E) : ResultPacker_2 E :=
  ⟨v.x_ / eucnorm sqrt v, v.y_ / eucnorm sqrt v⟩

end EuclideanRecVector2

namespace EuclideanRecVector3

variable {E : Type}

/-- Accessor x() (source line 2160). -/
def x (v : EuclideanRecVector3 E) : E := v.x_

/-- Accessor y() (source line 2164). -/
def y (v : EuclideanRecVector3 E) : E := v.y_

/-- Accessor z() (source line 2168). -/
def z (v : EuclideanRecVector3 E) : E := v.z_

/-- xy() (source lines 2172-2174): `return *this;` -- the vector viewed as
(a reference to) its EuclideanRecVector2 base subobject, i.e. the storage
holding x_ and y_. -/
def xy (v : EuclideanRecVector3 E) : EuclideanRecVector2 E :=
  ⟨v.x_, v.y_⟩

/-- Writing a 2-vector through the reference returned by xy() (source lines
2172-2174, together with EuclideanRecVector2's assignment operator, source
lines 1339-1059 region): the assignment overwrites the x_ and y_ members
stored in the base subobject in place; the derived member z_ is untouched. -/
def setXY (v : EuclideanRecVector3 E) (p : EuclideanRecVector2 E) :
    EuclideanRecVector3 E :=
  ⟨p.x_, p.y_, v.z_⟩

/-- xyz() swizzle (source line 2206): returns a Packer populated by copying
the three elements. -/
def xyzSwizzle (v : EuclideanRecVector3 E) : ResultPacker_3 E :=
  ⟨v.x_, v.y_, v.z_⟩

/-- operator+(const EuclideanRecVector3&) const (source lines 1750-1755):
`return { MX::x_ + vector.x_, MXY::y_ + vector.y_, z_ + vector.z_ };`. -/
def plus [Add E] (a b : EuclideanRecVector3 E) : ResultPacker_3 E :=
  ⟨a.x_ + b.x_, a.y_ + b.y_, a.z_ + b.z_⟩

/-- operator-(const EuclideanRecVector3&) const (source lines 1785-1790). -/
def minus [Sub E] (a b : EuclideanRecVector3 E) : ResultPacker_3 E :=
  ⟨a.x_ - b.x_, a.y_ - b.y_, a.z_ - b.z_⟩

/-- operator*(S&&) const (source lines 1821-1825): scalar multiply,
`return { MX::x_ * scl, MXY::y_ * scl, z_ * scl };`. -/
def mulScalar [Mul E] (a : EuclideanRecVector3 E) (scl : E) : ResultPacker_3 E :=
  ⟨a.x_ * scl, a.y_ * scl, a.z_ * scl⟩

/-- operator/(S&&) const (source lines 1841-1846): scalar divide. -/
def divScalar [Div E] (a : EuclideanRecVector3 E) (scl : E) : ResultPacker_3 E :=
  ⟨a.x_ / scl, a.y_ / scl, a.z_ / scl⟩

/-- dot(const EuclideanRecVector3&) const (source lines 2289-2294):
`return (MX::x_ * vector.x_) + (MXY::y_ * vector.y_) + (z_ * vector.z_);`
with C++ left-associated addition. -/
def dot [Mul E] [Add E] (a b : EuclideanRecVector3 E) : E :=
  ((a.x_ * b.x_) + (a.y_ * b.y_)) + (a.z_ * b.z_)

/-- dot(RRefPacker&&) const (source lines 2301-2306): the overload taking a
ResultPacker_3 right-hand side. -/
def dotPack [Mul E] [Add E] (a : EuclideanRecVector3 E)
    (pack : ResultPacker_3 E) : E :=
  ((a.x_ * pack.x) + (a.y_ * pack.y)) + (a.z_ * pack.z)

/-- eucnorm_squared() const (source lines 2315-2320). -/
def eucnorm_squared [Mul E] [Add E] (v : EuclideanRecVector3 E) : E :=
  ((v.x_ * v.x_) + (v.y_ * v.y_)) + (v.z_ * v.z_)

/-- eucnorm() const (source lines 2329-2334):
`return std::sqrt((MX::x_ * MX::x_) + (MXY::y_ * MXY::y_) + (z_ * z_));`. -/
def eucnorm [Mul E] [Add E] (sqrt : E → E) (v : EuclideanRecVector3 E) : E :=
  sqrt (((v.x_ * v.x_) + (v.y_ * v.y_)) + (v.z_ * v.z_))

/-- normalize() const (source lines 2341-2347): each member divided by
eucnorm(), no zero-norm guard. -/
def normalize [Mul E] [Add E] [Div E] (sqrt : E → E)
    (v : EuclideanRecVector3 E) : ResultPacker_3 E :=
  ⟨v.x_ / eucnorm sqrt v, v.y_ / eucnorm sqrt v, v.z_ / eucnorm sqrt v⟩

/-- cross(const EuclideanRecVector3&) const (source lines 2365-2371):
`return { MXY::y_ * right.z_ - z_ * right.y_,
          z_ * right.x_ - MX::x_ * right.z_,
          MX::x_ * right.y_ - MXY::y_ * right.x_ };`. -/
def cross [Mul E] [Sub E] (a b : EuclideanRecVector3 E) : ResultPacker_3 E :=
  ⟨a.y_ * b.z_ - a.z_ * b.y_,
   a.z_ * b.x_ - a.x_ * b.z_,
   a.x_ * b.y_ - a.y_ * b.x_⟩

/-- Constructor EuclideanRecVector3(RRefPacker&&) (source lines 1735-1739):
builds the vector from a ResultPacker_3. -/
def ofPack (p : ResultPacker_3 E) : EuclideanRecVector3 E :=
  ⟨p.x, p.y, p.z⟩

/-- Names of the accessor member functions of EuclideanRecVector3 whose
return type is a reference into the vector's own storage (source lines
2159-2174): the element accessors x(), y(), z() return LRefElemType and
xy() returns MXY& (the 2D base subobject).  Every other accessor in the
class (xx, xz, yx, ..., zzz, get_pack, source lines 2176-2252) returns a
SubPacker2 or Packer aggregate by value. -/
def refAccessors : List String := ["x", "y", "z", "xy"]

end EuclideanRecVector3

namespace EuclideanRecVector4

variable {E : Type}

/-- Accessor x() (source line 2904). -/
def x (v : EuclideanRecVector4 E) : E := v.x_

/-- Accessor y() (source line 2908). -/
def y (v : EuclideanRecVector4 E) : E := v.y_

/-- Accessor z() (source line 2912). -/
def z (v : EuclideanRecVector4 E) : E := v.z_

/-- Accessor w() (source line 2916). -/
def w (v : EuclideanRecVector4 E) : E := v.w_

/-- xy() (source lines 2920-2922): `return *this;` viewed as the
EuclideanRecVector2 base subobject holding x_ and y_. -/
def xy (v : EuclideanRecVector4 E) : EuclideanRecVector2 E :=
  ⟨v.x_, v.y_⟩

/-- xyz() (source lines 2924-2926): `return *this;` viewed as the
EuclideanRecVector3 base subobject holding x_, y_ and z_. -/
def xyz (v : EuclideanRecVector4 E) : EuclideanRecVector3 E :=
  ⟨v.x_, v.y_, v.z_⟩

/-- Writing a 2-vector through the reference returned by xy() overwrites
the x_ and y_ members in the base subobject; z_ and w_ are untouched. -/
def setXY (v : EuclideanRecVector4 E) (p : EuclideanRecVector2 E) :
    EuclideanRecVector4 E :=
  ⟨p.x_, p.y_, v.z_, v.w_⟩

/-- Writing a 3-vector through the reference returned by xyz() overwrites
the x_, y_ and z_ members in the base subobject; w_ is untouched. -/
def setXYZ (v : EuclideanRecVector4 E) (q : EuclideanRecVector3 E) :
    EuclideanRecVector4 E :=
  ⟨q.x_, q.y_, q.z_, v.w_⟩

/-- operator+(const EuclideanRecVector4&) const (source region 2430-2460):
componentwise sum into a ResultPacker_4. -/
def plus [Add E] (a b : EuclideanRecVector4 E) : ResultPacker_4 E :=
  ⟨a.x_ + b.x_, a.y_ + b.y_, a.z_ + b.z_, a.w_ + b.w_⟩

/-- dot(const EuclideanRecVector4&) const (source lines 3720-3725):
`return (MX::x_ * vector.x_) + (MXY::y_ * vector.y_)
      + (MXYZ::z_ * vector.z_) + (w_ * vector.w_);`. -/
def dot [Mul E] [Add E] (a b : EuclideanRecVector4 E) : E :=
  (((a.x_ * b.x_) + (a.y_ * b.y_)) + (a.z_ * b.z_)) + (a.w_ * b.w_)

/-- eucnorm_squared() const (source lines 3746-3751). -/
def eucnorm_squared [Mul E] [Add E] (v : EuclideanRecVector4 E) : E :=
  (((v.x_ * v.x_) + (v.y_ * v.y_)) + (v.z_ * v.z_)) + (v.w_ * v.w_)

/-- eucnorm() const (source lines 3760-3765). -/
def eucnorm [Mul E] [Add E] (sqrt : E → E) (v : EuclideanRecVector4 E) : E :=
  sqrt ((((v.x_ * v.x_) + (v.y_ * v.y_)) + (v.z_ * v.z_)) + (v.w_ * v.w_))

/-- normalize() const (source lines 3772-3779). -/
def normalize [Mul E] [Add E] [Div E] (sqrt : E → E)
    (v : EuclideanRecVector4 E) : ResultPacker_4 E :=
  ⟨v.x_ / eucnorm sqrt v, v.y_ / eucnorm sqrt v,
   v.z_ / eucnorm sqrt v, v.w_ / eucnorm sqrt v⟩

/-- Names of the accessor member functions of EuclideanRecVector4 whose
return type is a reference into the vector's own storage (source lines
2903-2926): x(), y(), z(), w() return LRefElemType, xy() returns MXY& and
xyz() returns MXYZ&.  Every other accessor (two-, three- and four-letter
swizzles, get_pack) returns a SubPacker or Packer aggregate by value. -/
def refAccessors : List String := ["x", "y", "z", "w", "xy", "xyz"]

end EuclideanRecVector4

namespace EuclideanCmplVector2

variable {E : Type}

/-- Accessor x() (flat family, public member; source region 4250). -/
def x (v : EuclideanCmplVector2 E) : E := v.x_

/-- Accessor y(). -/
def y (v : EuclideanCmplVector2 E) : E := v.y_

/-- operator+(const EuclideanCmplVector2&) const (source lines 3871-3876):
`return { x_ + vector.x_, y_ + vector.y_ };`. -/
def plus [Add E] (a b : EuclideanCmplVector2 E) : ResultPacker_2 E :=
  ⟨a.x_ + b.x_, a.y_ + b.y_⟩

/-- dot(const EuclideanCmplVector2&) const (source lines 4311-4316):
`return ElemType(x_ * vector.x_) + ElemType(y_ * vector.y_);` (the casts
are identity here). -/
def dot [Mul E] [Add E] (a b : EuclideanCmplVector2 E) : E :=
  (a.x_ * b.x_) + (a.y_ * b.y_)

/-- eucnorm_squared() const (source lines 4337-4342):
`return T(x_ * x_) + T(y_ * y_);`. -/
def eucnorm_squared [Mul E] [Add E] (v : EuclideanCmplVector2 E) : E :=
  (v.x_ * v.x_) + (v.y_ * v.y_)

/-- eucnorm() const (source lines 4351-4356):
`return std::sqrt(T(x_ * x_) + T(y_ * y_));`. -/
def eucnorm [Mul E] [Add E] (sqrt : E → E) (v : EuclideanCmplVector2 E) : E :=
  sqrt ((v.x_ * v.x_) + (v.y_ * v.y_))

/-- normalize() const (source lines 4363-4369). -/
def normalize [Mul E] [Add E] [Div E] (sqrt : E → E)
    (v : EuclideanCmplVector2 E) : ResultPacker_2 E :=
  ⟨v.x_ / eucnorm sqrt v, v.y_ / eucnorm sqrt v⟩

end EuclideanCmplVector2

namespace EuclideanCmplVector3

variable {E : Type}

/-- Accessor x() (source line 4874). -/
def x (v : EuclideanCmplVector3 E) : E := v.x_

/-- Accessor y() (source line 4878). -/
def y (v : EuclideanCmplVector3 E) : E := v.y_

/-- Accessor z() (source line 4882). -/
def z (v : EuclideanCmplVector3 E) : E := v.z_

/-- xy() (source line 4889): `return { x_, y_ };` -- a SubPacker2 aggregate
returned BY VALUE (an independent copy), not a reference into the vector. -/
def xy (v : EuclideanCmplVector3 E) : ResultPacker_2 E :=
  ⟨v.x_, v.y_⟩

/-- xyz() swizzle (source line 4918): a Packer copy of the three elements. -/
def xyzSwizzle (v : EuclideanCmplVector3 E) : ResultPacker_3 E :=
  ⟨v.x_, v.y_, v.z_⟩

/-- operator+(const EuclideanCmplVector3&) const (source lines 4464-4469):
`return { x_ + vector.x_, y_ + vector.y_, z_ + vector.z_ };`. -/
def plus [Add E] (a b : EuclideanCmplVector3 E) : ResultPacker_3 E :=
  ⟨a.x_ + b.x_, a.y_ + b.y_, a.z_ + b.z_⟩

/-- dot(const EuclideanCmplVector3&) const (source lines 5001-5006):
`return ElemType(x_ * vector.x_) + ElemType(y_ * vector.y_)
      + ElemType(z_ * vector.z_);` (identity casts dropped). -/
def dot [Mul E] [Add E] (a b : EuclideanCmplVector3 E) : E :=
  ((a.x_ * b.x_) + (a.y_ * b.y_)) + (a.z_ * b.z_)

/-- dot(RRefPacker&&) const (source lines 5013-5018). -/
def dotPack [Mul E] [Add E] (a : EuclideanCmplVector3 E)
    (pack : ResultPacker_3 E) : E :=
  ((a.x_ * pack.x) + (a.y_ * pack.y)) + (a.z_ * pack.z)

/-- cross(const EuclideanCmplVector3&) const (source lines 5077-5083):
`return { y_ * right.z_ - z_ * right.y_,
          z_ * right.x_ - x_ * right.z_,
          x_ * right.y_ - y_ * right.x_ };`. -/
def cross [Mul E] [Sub E] (a b : EuclideanCmplVector3 E) : ResultPacker_3 E :=
  ⟨a.y_ * b.z_ - a.z_ * b.y_,
   a.z_ * b.x_ - a.x_ * b.z_,
   a.x_ * b.y_ - a.y_ * b.x_⟩

/-- NOTE: EuclideanCmplVector3::eucnorm_squared() (source lines 5027-5032)
and EuclideanCmplVector3::eucnorm() (source lines 5041-5046) are NOT
modelled: their bodies read `ElemType(x_ * vector.x_) + ...` but the
functions take no parameter and the class has no member named `vector`,
so any instantiation of them is ill-formed C++ (see the code_bug results
for claims C2, C7 and C9).  normalize() (source lines 5053-5059) calls
eucnorm() and is therefore transitively uninstantiable. -/
def refAccessors : List String := ["x", "y", "z"]

end EuclideanCmplVector3

namespace EuclideanCmplVector4

variable {E : Type}

/-- Accessor x() (flat family, source region 5620). -/
def x (v : EuclideanCmplVector4 E) : E := v.x_

/-- Accessor y(). -/
def y (v : EuclideanCmplVector4 E) : E := v.y_

/-- Accessor z(). -/
def z (v : EuclideanCmplVector4 E) : E := v.z_

/-- Accessor w(). -/
def w (v : EuclideanCmplVector4 E) : E := v.w_

/-- xy() (source line 5639): a SubPacker2 aggregate returned by value. -/
def xy (v : EuclideanCmplVector4 E) : ResultPacker_2 E :=
  ⟨v.x_, v.y_⟩

/-- xyz() (source line 5686): a SubPacker3 aggregate returned by value. -/
def xyz (v : EuclideanCmplVector4 E) : ResultPacker_3 E :=
  ⟨v.x_, v.y_, v.z_⟩

/-- operator+(const EuclideanCmplVector4&) const (source lines 5187-5192):
`return { x_ + vector.x_, y_ + vector.y_, z_ + vector.z_, w_ + vector.w_ };`. -/
def plus [Add E] (a b : EuclideanCmplVector4 E) : ResultPacker_4 E :=
  ⟨a.x_ + b.x_, a.y_ + b.y_, a.z_ + b.z_, a.w_ + b.w_⟩

/-- dot(const EuclideanCmplVector4&) const (source lines 6432-6437):
`return ElemType(x_ * vector.x_) + ElemType(y_ * vector.y_)
      + ElemType(z_ * vector.z_) + ElemType(w_ * vector.w_);`. -/
def dot [Mul E] [Add E] (a b : EuclideanCmplVector4 E) : E :=
  (((a.x_ * b.x_) + (a.y_ * b.y_)) + (a.z_ * b.z_)) + (a.w_ * b.w_)

/-- eucnorm_squared() const (source lines 6458-6463):
`return (x_ * x_) + (y_ * y_) + (z_ * z_) + (w_ * w_);`. -/
def eucnorm_squared [Mul E] [Add E] (v : EuclideanCmplVector4 E) : E :=
  (((v.x_ * v.x_) + (v.y_ * v.y_)) + (v.z_ * v.z_)) + (v.w_ * v.w_)

/-- eucnorm() const (source lines 6472-6477). -/
def eucnorm [Mul E] [Add E] (sqrt : E → E) (v : EuclideanCmplVector4 E) : E :=
  sqrt ((((v.x_ * v.x_) + (v.y_ * v.y_)) + (v.z_ * v.z_)) + (v.w_ * v.w_))

/-- normalize() const (source lines 6484-6490). -/
def normalize [Mul E] [Add E] [Div E] (sqrt : E → E)
    (v : EuclideanCmplVector4 E) : ResultPacker_4 E :=
  ⟨v.x_ / eucnorm sqrt v, v.y_ / eucnorm sqrt v,
   v.z_ / eucnorm sqrt v, v.w_ / eucnorm sqrt v⟩

/-- Names of the accessor member functions of EuclideanCmplVector4 whose
return type is a reference into the vector's own storage (source region
5616-5634): only the element accessors x(), y(), z(), w().  Every multi
component accessor, including xy() and xyz(), returns a SubPacker or
Packer aggregate by value. -/
def refAccessors : List String := ["x", "y", "z", "w"]

end EuclideanCmplVector4

/-
  Capability-gated compound assignment (claim C1).

  Each compound-assignment operator of every vector class comes in two
  overload groups (EuclideanVector1, source lines 834-944; the same pattern
  is repeated verbatim in every other dimension and family):

    direct   : enabled when the member expression `x_ OP= vector.x_` is
               well-formed, i.e. when the element type supports the
               compound operator;
    fallback : its trailing return type is
               decltype(meta::cnd_type<!meta::is_X_equal_v<decltype(*this),
               decltype(vector)>>, x_ = x_ OP vector.x_, ...)
               so it is enabled when the vector-level compound trait is
               absent (equivalently, when the direct overload is not
               viable) AND the element supports the binary operator and
               plain assignment.

  The guards as written in the source are:
    operator+= fallback : !is_add_equal_v   (lines 856, 863, 870)
    operator-= fallback : !is_add_equal_v   (lines 898, 905, 912)  <- ADD, not SUB
    operator*= fallback : !is_mul_equal_v   (line 927)
    operator/= fallback : !is_div_equal_v   (line 941)
  grep confirms every -= fallback in the file (all dimensions, both
  families) tests is_add_equal_v; is_sub_equal_v is defined (lines 194-205,
  248-249) but never used.

  ElemCaps abstracts an element type by which primitive operators it
  provides; the viability functions below transcribe the enable-conditions
  above, reading the vector-level is_X_equal_v trait as the viability of
  the corresponding direct overload.
-/

/-- Capability profile of an element type E: which primitive operators the
type provides (compound ops, binary ops, copy assignment).  This mirrors
the inputs of the meta::is_add_equal_v family of traits (source lines
181-257). -/
structure ElemCaps where
  hasAddEq : Bool
  hasSubEq : Bool
  hasMulEq : Bool
  hasDivEq : Bool
  hasAdd : Bool
  hasSub : Bool
  hasMul : Bool
  hasDiv : Bool
  hasAssign : Bool
deriving DecidableEq

namespace EuclideanVector1

/-- Viability of the direct operator+= overload (source lines 833-838):
requires `x_ += vector.x_` on the element type. -/
def addEqDirectViable (c : ElemCaps) : Bool := c.hasAddEq

/-- Viability of the operator+= fallback overload (source lines 854-859):
guard `!is_add_equal_v` plus the body expression `x_ = x_ + vector.x_`. -/
def addEqFallbackViable (c : ElemCaps) : Bool :=
  !c.hasAddEq && (c.hasAdd && c.hasAssign)

/-- Viability of the direct operator-= overload (source lines 875-880):
requires `x_ -= vector.x_` on the element type. -/
def subEqDirectViable (c : ElemCaps) : Bool := c.hasSubEq

/-- Viability of the operator-= fallback overload (source lines 896-901):
the guard as written is `!is_add_equal_v` -- it tests the ADD compound
trait, not the SUB one -- plus the body expression `x_ = x_ - vector.x_`. -/
def subEqFallbackViable (c : ElemCaps) : Bool :=
  !c.hasAddEq && (c.hasSub && c.hasAssign)

/-- Viability of the direct operator*= overload (source lines 918-923). -/
def mulEqDirectViable (c : ElemCaps) : Bool := c.hasMulEq

/-- Viability of the operator*= fallback overload (source lines 925-930):
guard `!is_mul_equal_v` plus `x_ = x_ * scl`. -/
def mulEqFallbackViable (c : ElemCaps) : Bool :=
  !c.hasMulEq && (c.hasMul && c.hasAssign)

/-- Viability of the direct operator/= overload (source lines 932-937). -/
def divEqDirectViable (c : ElemCaps) : Bool := c.hasDivEq

/-- Viability of the operator/= fallback overload (source lines 939-944):
guard `!is_div_equal_v` plus `x_ = x_ / scl`. -/
def divEqFallbackViable (c : ElemCaps) : Bool :=
  !c.hasDivEq && (c.hasDiv && c.hasAssign)

/-- An element type supporting operator-=, binary operator- and assignment,
but neither operator+ nor operator+= (for example a time-point-like type
where subtracting two values is meaningful but adding them is not). -/
def capsSubNoAdd : ElemCaps :=
  ⟨false, true, false, false, false, true, false, false, true⟩

/-- An element type supporting operator+=, operator+, binary operator- and
assignment, but not operator-=. -/
def capsAddNoSubEq : ElemCaps :=
  ⟨true, false, false, false, true, true, false, false, true⟩

end EuclideanVector1

/-
  Compile-time API surface (claim C3): the struct templates declared in the
  header and the convenience aliases of source lines 6505-6563.
-/

/-- The vector struct templates declared by the header (source lines 526,
1082, 1673, 2392, 3801, 4388, 5104).  There is no struct template named
EuclideanVector2, EuclideanVector3 or EuclideanVector4. -/
def vectorTemplates : List String :=
  ["EuclideanVector1", "EuclideanRecVector2", "EuclideanRecVector3",
   "EuclideanRecVector4", "EuclideanCmplVector2", "EuclideanCmplVector3",
   "EuclideanCmplVector4"]

/-- The type aliases declared at the end of the header (source lines
6508-6563), as (alias name, aliased type) pairs. -/
def typeAliases : List (String × String) :=
  [("EucComputedResult1", "detail::ResultPacker_1<T>"),
   ("EucComputedResult2", "detail::ResultPacker_2<T>"),
   ("EucComputedResult3", "detail::ResultPacker_3<T>"),
   ("EucComputedResult4", "detail::ResultPacker_4<T>"),
   ("EucFloatComputedResult1", "detail::ResultPacker_1<float>"),
   ("EucFloatComputedResult2", "detail::ResultPacker_2<float>"),
   ("EucFloatComputedResult3", "detail::ResultPacker_3<float>"),
   ("EucFloatComputedResult4", "detail::ResultPacker_4<float>"),
   ("EucIntComputedResult1", "detail::ResultPacker_1<int>"),
   ("EucIntComputedResult2", "detail::ResultPacker_2<int>"),
   ("EucIntComputedResult3", "detail::ResultPacker_3<int>"),
   ("EucIntComputedResult4", "detail::ResultPacker_4<int>"),
   ("EucDoubleComputedResult1", "detail::ResultPacker_1<double>"),
   ("EucDoubleComputedResult2", "detail::ResultPacker_2<double>"),
   ("EucDoubleComputedResult3", "detail::ResultPacker_3<double>"),
   ("EucDoubleComputedResult4", "detail::ResultPacker_4<double>"),
   ("EucRecFloatVector1", "EuclideanVector1<float>"),
   ("EucRecFloatVector2", "EuclideanRecVector2<float>"),
   ("EucRecFloatVector3", "EuclideanRecVector3<float>"),
   ("EucRecFloatVector4", "EuclideanRecVector4<float>"),
   ("EucRecIntVector1", "EuclideanVector1<int>"),
   ("EucRecIntVector2", "EuclideanRecVector2<int>"),
   ("EucRecIntVector3", "EuclideanRecVector3<int>"),
   ("EucRecIntVector4", "EuclideanRecVector4<int>"),
   ("EucRecDoubleVector1", "EuclideanVector1<double>"),
   ("EucRecDoubleVector2", "EuclideanRecVector2<double>"),
   ("EucRecDoubleVector3", "EuclideanRecVector3<double>"),
   ("EucRecDoubleVector4", "EuclideanRecVector4<double>"),
   ("EucCmplFloatVector1", "EuclideanVector1<float>"),
   ("EucCmplFloatVector2", "EuclideanCmplVector2<float>"),
   ("EucCmplFloatVector3", "EuclideanCmplVector3<float>"),
   ("EucCmplFloatVector4", "EuclideanCmplVector4<float>"),
   ("EucCmplIntVector1", "EuclideanVector1<int>"),
   ("EucCmplIntVector2", "EuclideanCmplVector2<int>"),
   ("EucCmplIntVector3", "EuclideanCmplVector3<int>"),
   ("EucCmplIntVector4", "EuclideanCmplVector4<int>"),
   ("EucCmplDoubleVector1", "EuclideanVector1<double>"),
   ("EucCmplDoubleVector2", "EuclideanCmplVector2<double>"),
   ("EucCmplDoubleVector3", "EuclideanCmplVector3<double>"),
   ("EucCmplDoubleVector4", "EuclideanCmplVector4<double>")]

/-- Modelled from the claim wording of C3: the 24 vector alias names the
amended claim asserts (families Rec and Cmpl, elements float, int and
double, dimensions 1 to 4). -/
def specRecCmplAliasNames : List String :=
  ["EucRecFloatVector1", "EucRecFloatVector2", "EucRecFloatVector3",
   "EucRecFloatVector4", "EucRecIntVector1", "EucRecIntVector2",
   "EucRecIntVector3", "EucRecIntVector4", "EucRecDoubleVector1",
   "EucRecDoubleVector2", "EucRecDoubleVector3", "EucRecDoubleVector4",
   "EucCmplFloatVector1", "EucCmplFloatVector2", "EucCmplFloatVector3",
   "EucCmplFloatVector4", "EucCmplIntVector1", "EucCmplIntVector2",
   "EucCmplIntVector3", "EucCmplIntVector4", "EucCmplDoubleVector1",
   "EucCmplDoubleVector2", "EucCmplDoubleVector3", "EucCmplDoubleVector4"]

/-- Modelled from the claim wording of C5: a plain left-to-right sum,
accumulated term by term in order starting from the first value. -/
def specLeftToRightSum {E : Type} [Add E] (first : E) (rest : List E) : E :=
  rest.foldl (fun acc t => acc + t) first

/-
  Frame model for the const member functions (claim C10).

  Each `...Call` function below executes a const-qualified member function
  as a state transformer: it returns the function's result together with
  the member values of the receiver (and of the const-reference argument,
  when there is one) after the body has run.  The bodies of these members
  (cited per function) only read the members x_, y_, z_, w_ and contain no
  assignment to any member of either object, so the final member values
  are transcribed field by field from the unchanged storage.
-/

namespace EuclideanVector1

/-- dot(const EuclideanVector1&) const as a state transformer (source
lines 999-1004): result plus both objects' member values after the call. -/
def dotCall [Mul E] (a b : EuclideanVector1 E) :
    E × EuclideanVector1 E × EuclideanVector1 E :=
  (a.x_ * b.x_, ⟨a.x_⟩, ⟨b.x_⟩)

/-- eucnorm() const as a state transformer (source lines 1039-1044). -/
def eucnormCall [Mul E] (sqrt : E → E) (a : EuclideanVector1 E) :
    E × EuclideanVector1 E :=
  (eucnorm sqrt a, ⟨a.x_⟩)

end EuclideanVector1

namespace EuclideanRecVector3

/-- operator+(const EuclideanRecVector3&) const as a state transformer
(source lines 1750-1755). -/
def plusCall [Add E] (a b : EuclideanRecVector3 E) :
    ResultPacker_3 E × EuclideanRecVector3 E × EuclideanRecVector3 E :=
  (⟨a.x_ + b.x_, a.y_ + b.y_, a.z_ + b.z_⟩,
   ⟨a.x_, a.y_, a.z_⟩, ⟨b.x_, b.y_, b.z_⟩)

/-- operator-(const EuclideanRecVector3&) const as a state transformer
(source lines 1785-1790). -/
def minusCall [Sub E] (a b : EuclideanRecVector3 E) :
    ResultPacker_3 E × EuclideanRecVector3 E × EuclideanRecVector3 E :=
  (⟨a.x_ - b.x_, a.y_ - b.y_, a.z_ - b.z_⟩,
   ⟨a.x_, a.y_, a.z_⟩, ⟨b.x_, b.y_, b.z_⟩)

/-- operator*(S&&) const as a state transformer (source lines 1821-1825). -/
def mulScalarCall [Mul E] (a : EuclideanRecVector3 E) (scl : E) :
    ResultPacker_3 E × EuclideanRecVector3 E :=
  (⟨a.x_ * scl, a.y_ * scl, a.z_ * scl⟩, ⟨a.x_, a.y_, a.z_⟩)

/-- operator/(S&&) const as a state transformer (source lines 1841-1846). -/
def divScalarCall [Div E] (a : EuclideanRecVector3 E) (scl : E) :
    ResultPacker_3 E × EuclideanRecVector3 E :=
  (⟨a.x_ / scl, a.y_ / scl, a.z_ / scl⟩, ⟨a.x_, a.y_, a.z_⟩)

/-- dot(const EuclideanRecVector3&) const as a state transformer (source
lines 2289-2294). -/
def dotCall [Mul E] [Add E] (a b : EuclideanRecVector3 E) :
    E × EuclideanRecVector3 E × EuclideanRecVector3 E :=
  (((a.x_ * b.x_) + (a.y_ * b.y_)) + (a.z_ * b.z_),
   ⟨a.x_, a.y_, a.z_⟩, ⟨b.x_, b.y_, b.z_⟩)

/-- cross(const EuclideanRecVector3&) const as a state transformer (source
lines 2365-2371). -/
def crossCall [Mul E] [Sub E] (a b : EuclideanRecVector3 E) :
    ResultPacker_3 E × EuclideanRecVector3 E × EuclideanRecVector3 E :=
  (⟨a.y_ * b.z_ - a.z_ * b.y_, a.z_ * b.x_ - a.x_ * b.z_,
    a.x_ * b.y_ - a.y_ * b.x_⟩,
   ⟨a.x_, a.y_, a.z_⟩, ⟨b.x_, b.y_, b.z_⟩)

/-- eucnorm_squared() const as a state transformer (source lines 2315-2320). -/
def eucnormSquaredCall [Mul E] [Add E] (a : EuclideanRecVector3 E) :
    E × EuclideanRecVector3 E :=
  (((a.x_ * a.x_) + (a.y_ * a.y_)) + (a.z_ * a.z_), ⟨a.x_, a.y_, a.z_⟩)

/-- eucnorm() const as a state transformer (source lines 2329-2334). -/
def eucnormCall [Mul E] [Add E] (sqrt : E → E) (a : EuclideanRecVector3 E) :
    E × EuclideanRecVector3 E :=
  (eucnorm sqrt a, ⟨a.x_, a.y_, a.z_⟩)

/-- normalize() const as a state transformer (source lines 2341-2347). -/
def normalizeCall [Mul E] [Add E] [Div E] (sqrt : E → E)
    (a : EuclideanRecVector3 E) :
    ResultPacker_3 E × EuclideanRecVector3 E :=
  (normalize sqrt a, ⟨a.x_, a.y_, a.z_⟩)

/-- xyz() swizzle const as a state transformer (source line 2206). -/
def xyzSwizzleCall (a : EuclideanRecVector3 E) :
    ResultPacker_3 E × EuclideanRecVector3 E :=
  (⟨a.x_, a.y_, a.z_⟩, ⟨a.x_, a.y_, a.z_⟩)

end EuclideanRecVector3

namespace EuclideanCmplVector3

/-- operator+(const EuclideanCmplVector3&) const as a state transformer
(source lines 4464-4469). -/
def plusCall [Add E] (a b : EuclideanCmplVector3 E) :
    ResultPacker_3 E × EuclideanCmplVector3 E × EuclideanCmplVector3 E :=
  (⟨a.x_ + b.x_, a.y_ + b.y_, a.z_ + b.z_⟩,
   ⟨a.x_, a.y_, a.z_⟩, ⟨b.x_, b.y_, b.z_⟩)

/-- dot(const EuclideanCmplVector3&) const as a state transformer (source
lines 5001-5006). -/
def dotCall [Mul E] [Add E] (a b : EuclideanCmplVector3 E) :
    E × EuclideanCmplVector3 E × EuclideanCmplVector3 E :=
  (((a.x_ * b.x_) + (a.y_ * b.y_)) + (a.z_ * b.z_),
   ⟨a.x_, a.y_, a.z_⟩, ⟨b.x_, b.y_, b.z_⟩)

/-- cross(const EuclideanCmplVector3&) const as a state transformer (source
lines 5077-5083). -/
def crossCall [Mul E] [Sub E] (a b : EuclideanCmplVector3 E) :
    ResultPacker_3 E × EuclideanCmplVector3 E × EuclideanCmplVector3 E :=
  (⟨a.y_ * b.z_ - a.z_ * b.y_, a.z_ * b.x_ - a.x_ * b.z_,
    a.x_ * b.y_ - a.y_ * b.x_⟩,
   ⟨a.x_, a.y_, a.z_⟩, ⟨b.x_, b.y_, b.z_⟩)

/-- xy() swizzle const as a state transformer (source line 4889). -/
def xyCall (a : EuclideanCmplVector3 E) :
    ResultPacker_2 E × EuclideanCmplVector3 E :=
  (⟨a.x_, a.y_⟩, ⟨a.x_, a.y_, a.z_⟩)

end EuclideanCmplVector3

namespace EuclideanCmplVector4

/-- eucnorm() const as a state transformer (source lines 6472-6477). -/
def eucnormCall [Mul E] [Add E] (sqrt : E → E) (a : EuclideanCmplVector4 E) :
    E × EuclideanCmplVector4 E :=
  (eucnorm sqrt a, ⟨a.x_, a.y_, a.z_, a.w_⟩)

end EuclideanCmplVector4

/-
  Claim theorems.
-/

/-- Claim C1 (code bug evidence): at the capability profile capsSubNoAdd --
an element type with operator-=, binary operator- and operator=, but
without operator+ or operator+= -- BOTH the direct operator-= overload and
its fallback overload are viable, because every -= fallback guard in the
source tests meta::is_add_equal_v (availability of +=) instead of
meta::is_sub_equal_v, so the call `v -= w` is ambiguous; and dually, at
capsAddNoSubEq -- an element type with operator+= and binary operator-
but without operator-= -- neither -= overload is viable even though the
claimed fallback path (binary - plus assignment) is available.  The claim
states the fallback participates exactly when the direct compound operator
is unavailable, with no ambiguity ever. -/
theorem subEq_fallback_guard_tests_wrong_trait :
    (EuclideanVector1.subEqDirectViable EuclideanVector1.capsSubNoAdd = true ∧
      EuclideanVector1.subEqFallbackViable EuclideanVector1.capsSubNoAdd = true) ∧
    (EuclideanVector1.subEqDirectViable EuclideanVector1.capsAddNoSubEq = false ∧
      EuclideanVector1.subEqFallbackViable EuclideanVector1.capsAddNoSubEq = false ∧
      EuclideanVector1.capsAddNoSubEq.hasSub = true ∧
      EuclideanVector1.capsAddNoSubEq.hasAssign = true) ∧
    (EuclideanVector1.addEqDirectViable EuclideanVector1.capsSubNoAdd = false ∧
      EuclideanVector1.mulEqFallbackViable EuclideanVector1.capsSubNoAdd = false) := by
  decide

/-- Claim C3 counterexample: the claim asserts the header provides a
flat/inheriting family EuclideanVector2/3/4 and an alias named
EucFloatVector3; neither name is declared anywhere in the header. -/
theorem api_surface_claimed_names_absent :
    "EuclideanVector2" ∉ vectorTemplates ∧
    "EuclideanVector3" ∉ vectorTemplates ∧
    "EuclideanVector4" ∉ vectorTemplates ∧
    "EucFloatVector3" ∉ typeAliases.map Prod.fst ∧
    "EucIntVector2" ∉ typeAliases.map Prod.fst := by
  decide

/-- Claim C3 (amended): the compile-time API surface consists of the
templates EuclideanVector1 and the two families EuclideanRecVector2/3/4
and EuclideanCmplVector2/3/4 (no EuclideanVector2/3/4 family), together
with the EucRec/EucCmpl convenience aliases binding float, int and double
to every family and dimension (including EucRecDoubleVector2), plus the
EucComputedResult aliases; no unprefixed alias such as EucFloatVector3
exists. -/
theorem api_surface_actual_templates_and_aliases :
    "EuclideanVector1" ∈ vectorTemplates ∧
    "EuclideanRecVector2" ∈ vectorTemplates ∧
    "EuclideanRecVector3" ∈ vectorTemplates ∧
    "EuclideanRecVector4" ∈ vectorTemplates ∧
    "EuclideanCmplVector2" ∈ vectorTemplates ∧
    "EuclideanCmplVector3" ∈ vectorTemplates ∧
    "EuclideanCmplVector4" ∈ vectorTemplates ∧
    "EuclideanVector2" ∉ vectorTemplates ∧
    vectorTemplates.length = 7 ∧
    ("EucRecDoubleVector2", "EuclideanRecVector2<double>") ∈ typeAliases ∧
    ("EucCmplFloatVector3", "EuclideanCmplVector3<float>") ∈ typeAliases ∧
    specRecCmplAliasNames.all (fun n => n ∈ typeAliases.map Prod.fst) = true ∧
    "EucFloatVector3" ∉ typeAliases.map Prod.fst := by
  decide

/-- Claim C4: for all vectors of matching dimension and element type, in
every family, operator+ produces a ResultPack whose every component is the
sum of the corresponding components of the operands; in particular for 3D
float vectors a = (1,2,3) and b = (4,5,6) (these small integer values are
exact in float, modelled in ℚ) the sum has x = 5, y = 7, z = 9 in both
3D families. -/
theorem plus_componentwise_and_concrete :
    (∀ (E : Type) [Add E] (a b : EuclideanVector1 E),
      (a.plus b).x = a.x + b.x) ∧
    (∀ (E : Type) [Add E] (a b : EuclideanRecVector2 E),
      (a.plus b).x = a.x + b.x ∧ (a.plus b).y = a.y + b.y) ∧
    (∀ (E : Type) [Add E] (a b : EuclideanRecVector3 E),
      (a.plus b).x = a.x + b.x ∧ (a.plus b).y = a.y + b.y ∧
        (a.plus b).z = a.z + b.z) ∧
    (∀ (E : Type) [Add E] (a b : EuclideanRecVector4 E),
      (a.plus b).x = a.x + b.x ∧ (a.plus b).y = a.y + b.y ∧
        (a.plus b).z = a.z + b.z ∧ (a.plus b).w = a.w + b.w) ∧
    (∀ (E : Type) [Add E] (a b : EuclideanCmplVector2 E),
      (a.plus b).x = a.x + b.x ∧ (a.plus b).y = a.y + b.y) ∧
    (∀ (E : Type) [Add E] (a b : EuclideanCmplVector3 E),
      (a.plus b).x = a.x + b.x ∧ (a.plus b).y = a.y + b.y ∧
        (a.plus b).z = a.z + b.z) ∧
    (∀ (E : Type) [Add E] (a b : EuclideanCmplVector4 E),
      (a.plus b).x = a.x + b.x ∧ (a.plus b).y = a.y + b.y ∧
        (a.plus b).z = a.z + b.z ∧ (a.plus b).w = a.w + b.w) ∧
    (EuclideanRecVector3.plus (⟨1, 2, 3⟩ : EuclideanRecVector3 ℚ) ⟨4, 5, 6⟩ =
      ⟨5, 7, 9⟩) ∧
    (EuclideanCmplVector3.plus (⟨1, 2, 3⟩ : EuclideanCmplVector3 ℚ) ⟨4, 5, 6⟩ =
      ⟨5, 7, 9⟩) := by
  refine ⟨fun E _ a b => rfl, fun E _ a b => ⟨rfl, rfl⟩,
    fun E _ a b => ⟨rfl, rfl, rfl⟩, fun E _ a b => ⟨rfl, rfl, rfl, rfl⟩,
    fun E _ a b => ⟨rfl, rfl⟩, fun E _ a b => ⟨rfl, rfl, rfl⟩,
    fun E _ a b => ⟨rfl, rfl, rfl, rfl⟩, ?_, ?_⟩ <;>
  · show ResultPacker_3.mk _ _ _ = _
    norm_num [EuclideanRecVector3.plus, EuclideanCmplVector3.plus]

/-- Claim C5: in every family and dimension, dot is the plain left-to-right
sum of the componentwise products, accumulated dimension by dimension in
order.  The statement is over an arbitrary type with arbitrary Mul and Add
(no associativity or commutativity assumed), so it pins the exact
association and order of the accumulation; specLeftToRightSum is the
claim's left-to-right fold. -/
theorem dot_left_to_right_sum_all_families :
    (∀ (E : Type) [Mul E] [Add E] (a b : EuclideanVector1 E),
      a.dot b = specLeftToRightSum (a.x_ * b.x_) []) ∧
    (∀ (E : Type) [Mul E] [Add E] (a b : EuclideanRecVector2 E),
      a.dot b = specLeftToRightSum (a.x_ * b.x_) [a.y_ * b.y_]) ∧
    (∀ (E : Type) [Mul E] [Add E] (a b : EuclideanRecVector3 E),
      a.dot b = specLeftToRightSum (a.x_ * b.x_) [a.y_ * b.y_, a.z_ * b.z_]) ∧
    (∀ (E : Type) [Mul E] [Add E] (a b : EuclideanRecVector4 E),
      a.dot b = specLeftToRightSum (a.x_ * b.x_)
        [a.y_ * b.y_, a.z_ * b.z_, a.w_ * b.w_]) ∧
    (∀ (E : Type) [Mul E] [Add E] (a b : EuclideanCmplVector2 E),
      a.dot b = specLeftToRightSum (a.x_ * b.x_) [a.y_ * b.y_]) ∧
    (∀ (E : Type) [Mul E] [Add E] (a b : EuclideanCmplVector3 E),
      a.dot b = specLeftToRightSum (a.x_ * b.x_) [a.y_ * b.y_, a.z_ * b.z_]) ∧
    (∀ (E : Type) [Mul E] [Add E] (a b : EuclideanCmplVector4 E),
      a.dot b = specLeftToRightSum (a.x_ * b.x_)
        [a.y_ * b.y_, a.z_ * b.z_, a.w_ * b.w_]) :=
  ⟨fun E _ _ a b => rfl, fun E _ _ a b => rfl, fun E _ _ a b => rfl,
   fun E _ _ a b => rfl, fun E _ _ a b => rfl, fun E _ _ a b => rfl,
   fun E _ _ a b => rfl⟩

/-- Claim C9 (code bug evidence, valid classes): eucnorm_squared() equals
dot(self) -- with identical association and order -- for every class whose
eucnorm_squared body is well-formed: EuclideanVector1, the whole recursive
family, EuclideanCmplVector2 and EuclideanCmplVector4.  The remaining
class, EuclideanCmplVector3, has no well-formed eucnorm_squared to model:
its body (source line 5031) names the undeclared identifier `vector`. -/
theorem eucnorm_squared_eq_dot_self_valid_classes :
    (∀ (E : Type) [Mul E] (v : EuclideanVector1 E),
      v.eucnorm_squared = v.dot v) ∧
    (∀ (E : Type) [Mul E] [Add E] (v : EuclideanRecVector2 E),
      v.eucnorm_squared = v.dot v) ∧
    (∀ (E : Type) [Mul E] [Add E] (v : EuclideanRecVector3 E),
      v.eucnorm_squared = v.dot v) ∧
    (∀ (E : Type) [Mul E] [Add E] (v : EuclideanRecVector4 E),
      v.eucnorm_squared = v.dot v) ∧
    (∀ (E : Type) [Mul E] [Add E] (v : EuclideanCmplVector2 E),
      v.eucnorm_squared = v.dot v) ∧
    (∀ (E : Type) [Mul E] [Add E] (v : EuclideanCmplVector4 E),
      v.eucnorm_squared = v.dot v) :=
  ⟨fun E _ v => rfl, fun E _ _ v => rfl, fun E _ _ v => rfl,
   fun E _ _ v => rfl, fun E _ _ v => rfl, fun E _ _ v => rfl⟩

/-- Claim C2 (code bug evidence, valid classes): for every class of
dimension at least 2 whose norm members are well-formed (the recursive
family, EuclideanCmplVector2, EuclideanCmplVector4), eucnorm() applies
sqrt to exactly the value computed by eucnorm_squared(); for the
1-dimensional EuclideanVector1, eucnorm() returns the raw stored element
without applying sqrt or an absolute value, so at x = -3 (over ℤ, with
any sqrt model) it returns -3 and not the absolute value 3.  The remaining
class, EuclideanCmplVector3, has no well-formed eucnorm to model: its body
(source line 5045) names the undeclared identifier `vector`. -/
theorem eucnorm_sqrt_of_squared_valid_classes :
    (∀ (E : Type) [Mul E] [Add E] (sqrt : E → E) (v : EuclideanRecVector2 E),
      v.eucnorm sqrt = sqrt v.eucnorm_squared) ∧
    (∀ (E : Type) [Mul E] [Add E] (sqrt : E → E) (v : EuclideanRecVector3 E),
      v.eucnorm sqrt = sqrt v.eucnorm_squared) ∧
    (∀ (E : Type) [Mul E] [Add E] (sqrt : E → E) (v : EuclideanRecVector4 E),
      v.eucnorm sqrt = sqrt v.eucnorm_squared) ∧
    (∀ (E : Type) [Mul E] [Add E] (sqrt : E → E) (v : EuclideanCmplVector2 E),
      v.eucnorm sqrt = sqrt v.eucnorm_squared) ∧
    (∀ (E : Type) [Mul E] [Add E] (sqrt : E → E) (v : EuclideanCmplVector4 E),
      v.eucnorm sqrt = sqrt v.eucnorm_squared) ∧
    (∀ (sqrt : ℤ → ℤ) (v : EuclideanVector1 ℤ), v.eucnorm sqrt = v.x_) ∧
    (∀ (sqrt : ℤ → ℤ),
      EuclideanVector1.eucnorm sqrt (⟨-3⟩ : EuclideanVector1 ℤ) = -3 ∧
      EuclideanVector1.eucnorm sqrt (⟨-3⟩ : EuclideanVector1 ℤ) ≠ |(-3 : ℤ)|) := by
  refine ⟨fun E _ _ s v => rfl, fun E _ _ s v => rfl, fun E _ _ s v => rfl,
    fun E _ _ s v => rfl, fun E _ _ s v => rfl, fun s v => rfl,
    fun s => ⟨rfl, ?_⟩⟩
  show (-3 : ℤ) ≠ |(-3 : ℤ)|
  decide

/-- Claim C6: in both 3D families, cross computes the standard formula
(y*bz - z*by, z*bx - x*bz, x*by - y*bx); consequently, over exact
commutative-ring arithmetic, the result is orthogonal to both operands
(its dot product with either operand is 0) and a.cross(b) is the
componentwise negation of b.cross(a).  The formula conjuncts are stated
over arbitrary Mul and Sub structures, pinning the exact expressions; the
algebraic consequences use a commutative ring.  (The cross bodies contain
no branch, so degenerate parallel inputs receive no special handling.) -/
theorem cross_formula_orthogonal_antisymmetric :
    (∀ (E : Type) [Mul E] [Sub E] (a b : EuclideanRecVector3 E),
      a.cross b = ⟨a.y_ * b.z_ - a.z_ * b.y_, a.z_ * b.x_ - a.x_ * b.z_,
        a.x_ * b.y_ - a.y_ * b.x_⟩) ∧
    (∀ (E : Type) [Mul E] [Sub E] (a b : EuclideanCmplVector3 E),
      a.cross b = ⟨a.y_ * b.z_ - a.z_ * b.y_, a.z_ * b.x_ - a.x_ * b.z_,
        a.x_ * b.y_ - a.y_ * b.x_⟩) ∧
    (∀ (E : Type) [CommRing E] (a b : EuclideanRecVector3 E),
      a.dotPack (a.cross b) = 0 ∧ b.dotPack (a.cross b) = 0 ∧
      (a.cross b).x = -((b.cross a).x) ∧ (a.cross b).y = -((b.cross a).y) ∧
      (a.cross b).z = -((b.cross a).z)) ∧
    (∀ (E : Type) [CommRing E] (a b : EuclideanCmplVector3 E),
      a.dotPack (a.cross b) = 0 ∧ b.dotPack (a.cross b) = 0 ∧
      (a.cross b).x = -((b.cross a).x) ∧ (a.cross b).y = -((b.cross a).y) ∧
      (a.cross b).z = -((b.cross a).z)) ∧
    (EuclideanRecVector3.cross (⟨1, 0, 0⟩ : EuclideanRecVector3 ℤ) ⟨0, 1, 0⟩ =
      ⟨0, 0, 1⟩) := by
  refine ⟨fun E _ _ a b => rfl, fun E _ _ a b => rfl, ?_, ?_, by decide⟩
  · intro E _ a b
    refine ⟨?_, ?_, ?_, ?_, ?_⟩ <;>
      simp only [EuclideanRecVector3.cross, EuclideanRecVector3.dotPack] <;> ring
  · intro E _ a b
    refine ⟨?_, ?_, ?_, ?_, ?_⟩ <;>
      simp only [EuclideanCmplVector3.cross, EuclideanCmplVector3.dotPack] <;> ring

/-- Claim C8: for the recursive 3D and 4D vectors, xy() (and xyz() for 4D)
is a reference into the vector's own storage: writing a value through the
returned reference is observed by the element accessors x(), y() (and
z()), the components outside the prefix are untouched, and re-reading the
view returns exactly the written value; the inventory facts record that
xy()/xyz() are among the reference-returning accessors of the recursive
classes while the Cmpl classes have no multi-component reference-returning
accessor (their xy()/xyz() return ResultPack copies of the current
element values). -/
theorem xy_reference_aliasing_rec_not_cmpl :
    (∀ (E : Type) (v : EuclideanRecVector3 E) (p : EuclideanRecVector2 E),
      (v.setXY p).x = p.x ∧ (v.setXY p).y = p.y ∧ (v.setXY p).z = v.z ∧
      (v.setXY p).xy = p) ∧
    (∀ (E : Type) (v : EuclideanRecVector4 E) (p : EuclideanRecVector2 E),
      (v.setXY p).x = p.x ∧ (v.setXY p).y = p.y ∧ (v.setXY p).z = v.z ∧
      (v.setXY p).w = v.w ∧ (v.setXY p).xy = p) ∧
    (∀ (E : Type) (v : EuclideanRecVector4 E) (q : EuclideanRecVector3 E),
      (v.setXYZ q).x = q.x ∧ (v.setXYZ q).y = q.y ∧ (v.setXYZ q).z = q.z ∧
      (v.setXYZ q).w = v.w ∧ (v.setXYZ q).xyz = q) ∧
    ("xy" ∈ EuclideanRecVector3.refAccessors ∧
      "xy" ∈ EuclideanRecVector4.refAccessors ∧
      "xyz" ∈ EuclideanRecVector4.refAccessors) ∧
    ("xy" ∉ EuclideanCmplVector3.refAccessors ∧
      "xy" ∉ EuclideanCmplVector4.refAccessors ∧
      "xyz" ∉ EuclideanCmplVector4.refAccessors) ∧
    (∀ (E : Type) (v : EuclideanCmplVector3 E), v.xy = ⟨v.x, v.y⟩) ∧
    (∀ (E : Type) (v : EuclideanCmplVector4 E),
      v.xy = ⟨v.x, v.y⟩ ∧ v.xyz = ⟨v.x, v.y, v.z⟩) :=
  ⟨fun E v p => ⟨rfl, rfl, rfl, rfl⟩,
   fun E v p => ⟨rfl, rfl, rfl, rfl, rfl⟩,
   fun E v q => ⟨rfl, rfl, rfl, rfl, rfl⟩,
   by decide, by decide,
   fun E v => rfl, fun E v => ⟨rfl, rfl⟩⟩

/-- Claim C10: the const-qualified read-only member functions -- the
binary operators with a const vector argument (+, -, scalar * and /),
dot, cross, eucnorm_squared, eucnorm, normalize and the copy-returning
swizzles -- leave the member values of the receiver and of the
const-reference argument unchanged: run as state transformers, the final
states of both objects equal the initial states. -/
theorem const_operations_preserve_operands :
    (∀ (E : Type) [Mul E] (a b : EuclideanVector1 E),
      (a.dotCall b).2.1 = a ∧ (a.dotCall b).2.2 = b) ∧
    (∀ (E : Type) [Mul E] (sqrt : E → E) (a : EuclideanVector1 E),
      (EuclideanVector1.eucnormCall sqrt a).2 = a) ∧
    (∀ (E : Type) [Add E] (a b : EuclideanRecVector3 E),
      (a.plusCall b).2.1 = a ∧ (a.plusCall b).2.2 = b) ∧
    (∀ (E : Type) [Sub E] (a b : EuclideanRecVector3 E),
      (a.minusCall b).2.1 = a ∧ (a.minusCall b).2.2 = b) ∧
    (∀ (E : Type) [Mul E] (a : EuclideanRecVector3 E) (scl : E),
      (a.mulScalarCall scl).2 = a) ∧
    (∀ (E : Type) [Div E] (a : EuclideanRecVector3 E) (scl : E),
      (a.divScalarCall scl).2 = a) ∧
    (∀ (E : Type) [Mul E] [Add E] (a b : EuclideanRecVector3 E),
      (a.dotCall b).2.1 = a ∧ (a.dotCall b).2.2 = b) ∧
    (∀ (E : Type) [Mul E] [Sub E] (a b : EuclideanRecVector3 E),
      (a.crossCall b).2.1 = a ∧ (a.crossCall b).2.2 = b) ∧
    (∀ (E : Type) [Mul E] [Add E] (a : EuclideanRecVector3 E),
      (a.eucnormSquaredCall).2 = a) ∧
    (∀ (E : Type) [Mul E] [Add E] (sqrt : E → E) (a : EuclideanRecVector3 E),
      (EuclideanRecVector3.eucnormCall sqrt a).2 = a) ∧
    (∀ (E : Type) [Mul E] [Add E] [Div E] (sqrt : E → E)
        (a : EuclideanRecVector3 E),
      (EuclideanRecVector3.normalizeCall sqrt a).2 = a) ∧
    (∀ (E : Type) (a : EuclideanRecVector3 E), (a.xyzSwizzleCall).2 = a) ∧
    (∀ (E : Type) [Add E] (a b : EuclideanCmplVector3 E),
      (a.plusCall b).2.1 = a ∧ (a.plusCall b).2.2 = b) ∧
    (∀ (E : Type) [Mul E] [Add E] (a b : EuclideanCmplVector3 E),
      (a.dotCall b).2.1 = a ∧ (a.dotCall b).2.2 = b) ∧
    (∀ (E : Type) [Mul E] [Sub E] (a b : EuclideanCmplVector3 E),
      (a.crossCall b).2.1 = a ∧ (a.crossCall b).2.2 = b) ∧
    (∀ (E : Type) (a : EuclideanCmplVector3 E), (a.xyCall).2 = a) ∧
    (∀ (E : Type) [Mul E] [Add E] (sqrt : E → E) (a : EuclideanCmplVector4 E),
      (EuclideanCmplVector4.eucnormCall sqrt a).2 = a) :=
  ⟨fun E _ a b => ⟨rfl, rfl⟩, fun E _ s a => rfl,
   fun E _ a b => ⟨rfl, rfl⟩, fun E _ a b => ⟨rfl, rfl⟩,
   fun E _ a s => rfl, fun E _ a s => rfl,
   fun E _ _ a b => ⟨rfl, rfl⟩, fun E _ _ a b => ⟨rfl, rfl⟩,
   fun E _ _ a => rfl, fun E _ _ s a => rfl, fun E _ _ _ s a => rfl,
   fun E a => rfl,
   fun E _ a b => ⟨rfl, rfl⟩, fun E _ _ a b => ⟨rfl, rfl⟩,
   fun E _ _ a b => ⟨rfl, rfl⟩, fun E a => rfl, fun E _ _ s a => rfl⟩

/-- Claim C7 (code bug evidence, valid classes): for every class whose
normalize() is well-formed (EuclideanVector1, the recursive family,
EuclideanCmplVector2, EuclideanCmplVector4), normalize() returns a
ResultPack whose i-th component is the i-th element divided by eucnorm(),
with no zero-norm guard anywhere in the body; consequently, over exact
real arithmetic with Real.sqrt (the idealisation of the floating-point
element types), a non-zero EuclideanRecVector3 normalizes to a vector of
Euclidean norm exactly 1.  The remaining class, EuclideanCmplVector3, has
no well-formed normalize() to model: it calls eucnorm(), whose body
(source line 5045) names the undeclared identifier `vector`. -/
theorem normalize_componentwise_and_unit_norm :
    (∀ (E : Type) [Mul E] [Div E] (sqrt : E → E) (v : EuclideanVector1 E),
      EuclideanVector1.normalize sqrt v = ⟨v.x_ / v.eucnorm sqrt⟩) ∧
    (∀ (E : Type) [Mul E] [Add E] [Div E] (sqrt : E → E)
        (v : EuclideanRecVector2 E),
      EuclideanRecVector2.normalize sqrt v =
        ⟨v.x_ / v.eucnorm sqrt, v.y_ / v.eucnorm sqrt⟩) ∧
    (∀ (E : Type) [Mul E] [Add E] [Div E] (sqrt : E → E)
        (v : EuclideanRecVector3 E),
      EuclideanRecVector3.normalize sqrt v =
        ⟨v.x_ / v.eucnorm sqrt, v.y_ / v.eucnorm sqrt, v.z_ / v.eucnorm sqrt⟩) ∧
    (∀ (E : Type) [Mul E] [Add E] [Div E] (sqrt : E → E)
        (v : EuclideanRecVector4 E),
      EuclideanRecVector4.normalize sqrt v =
        ⟨v.x_ / v.eucnorm sqrt, v.y_ / v.eucnorm sqrt, v.z_ / v.eucnorm sqrt,
         v.w_ / v.eucnorm sqrt⟩) ∧
    (∀ (E : Type) [Mul E] [Add E] [Div E] (sqrt : E → E)
        (v : EuclideanCmplVector2 E),
      EuclideanCmplVector2.normalize sqrt v =
        ⟨v.x_ / v.eucnorm sqrt, v.y_ / v.eucnorm sqrt⟩) ∧
    (∀ (E : Type) [Mul E] [Add E] [Div E] (sqrt : E → E)
        (v : EuclideanCmplVector4 E),
      EuclideanCmplVector4.normalize sqrt v =
        ⟨v.x_ / v.eucnorm sqrt, v.y_ / v.eucnorm sqrt, v.z_ / v.eucnorm sqrt,
         v.w_ / v.eucnorm sqrt⟩) ∧
    (∀ v : EuclideanRecVector3 ℝ,
      0 < ((v.x_ * v.x_) + (v.y_ * v.y_)) + (v.z_ * v.z_) →
      EuclideanRecVector3.eucnorm Real.sqrt
        (EuclideanRecVector3.ofPack
          (EuclideanRecVector3.normalize Real.sqrt v)) = 1) := by
  refine ⟨fun E _ _ s v => rfl, fun E _ _ _ s v => rfl, fun E _ _ _ s v => rfl,
    fun E _ _ _ s v => rfl, fun E _ _ _ s v => rfl, fun E _ _ _ s v => rfl, ?_⟩
  intro v h
  simp only [EuclideanRecVector3.eucnorm, EuclideanRecVector3.normalize,
    EuclideanRecVector3.ofPack]
  set sq : ℝ := ((v.x_ * v.x_) + (v.y_ * v.y_)) + (v.z_ * v.z_) with hsq
  have hn : 0 < Real.sqrt sq := Real.sqrt_pos.mpr h
  have key : (v.x_ / Real.sqrt sq * (v.x_ / Real.sqrt sq) +
      v.y_ / Real.sqrt sq * (v.y_ / Real.sqrt sq)) +
      v.z_ / Real.sqrt sq * (v.z_ / Real.sqrt sq) = 1 := by
    field_simp
  rw [key, Real.sqrt_one]

/-- Witness for normalize_componentwise_and_unit_norm: the unit-norm
consequence applied at the concrete non-zero vector (3, 0, 4), whose
squared norm 25 is positive. -/
theorem normalize_unit_norm_witness :
    EuclideanRecVector3.eucnorm Real.sqrt
      (EuclideanRecVector3.ofPack
        (EuclideanRecVector3.normalize Real.sqrt
          (⟨3, 0, 4⟩ : EuclideanRecVector3 ℝ))) = 1 :=
  normalize_componentwise_and_unit_norm.2.2.2.2.2.2 ⟨3, 0, 4⟩ (by norm_num)
